import Mathlib

/-!
Verification of the scoring engine of the monitor-score repository.

The repository file src/src/app/page.tsx contains two concatenated revisions
of the same scoring module (a document separator sits at line 2386):

* revision 1 (lines 1-2385): calculateScore at lines 433-609, clamps part1 to
  [0, 60], floors the total at 0, and excludes a (tool, capability) pair with
  zero relevant scenarios from the standardization average;
* revision 2 (lines 2386-4229): calculateScore at lines 2835-3002, caps part1
  at 60 only, does not floor the total, and treats a selected tool whose
  enabled capabilities have no relevant scenarios as a full-score (10) term,
  averaged over all selected tool ids.

Revision 1 is embedded as calculateScore and revision 2 as calculateScoreV2.
JavaScript numbers are modelled as rationals (NaN/Infinity are outside this
model); TypeScript string-literal unions are modelled as String; optional
fields are modelled as Option; a JS object used as a string-keyed map is
modelled as a total function defaulting to the empty list.
-/

/-- One entry of a rules / deductionRules array in the rule-table JSON read by
page.tsx. Every field is optional, mirroring the loosely typed document; the
JSON key named after a conditional keyword is modelled as field whenCond. -/
structure RuleEntry where
  whenCond : Option String := none
  deduct : Option ℚ := none
  score : Option ℚ := none
  deductPerItem : Option ℚ := none
  capDeduct : Option ℚ := none
  bonusPerItem : Option ℚ := none
  cap : Option ℚ := none

/-- One item of a dimension of the rule-table JSON (looked up by ruleById). -/
structure RuleItem where
  id : String
  basePoints : Option ℚ := none
  deductionRules : Option (List RuleEntry) := none
  rules : Option (List RuleEntry) := none

/-- A dimension of the rule-table JSON; items may be absent (d.items || []). -/
structure RuleDimension where
  items : Option (List RuleItem) := none

/-- The rule-table document (score_rules_v1.json shape): a list of dimensions. -/
structure RuleData where
  dimensions : List RuleDimension := []

/-- Scenario (src/src/app/page.tsx lines 16-22): a standardized metric check.
metric, level and threshold are free text never read by the scoring engine. -/
structure Scenario where
  id : String
  category : String
  metric : String := ""
  level : String := "gray"
  threshold : String := ""

/-- MonitorTool (lines 24-29): a catalog entry. defaultCapabilities and name
are carried but never read by calculateScore. -/
structure MonitorTool where
  id : String
  name : String := ""
  defaultCapabilities : List String := []
  scenarios : List Scenario := []

/-- SystemData (lines 31-65): the system configuration being scored.
toolCapabilities, a JS object keyed by tool id, is modelled as a total
function (an absent key reads as [], the code always applies "|| []").
The fields updatedAt, avgDetectionTime, maxDetectionTime,
mismatchedAlertsCount and earlyDetectionCount are never read by
calculateScore and are omitted. -/
structure SystemData where
  id : String := "sys"
  name : String := ""
  tier : String := "A"
  isSelfBuilt : Bool := false
  serverCoverage : String := "full"
  selectedToolIds : List String := []
  toolCapabilities : String → List String := fun _ => []
  checkedScenarioIds : List String := []
  documentedItems : ℚ := 0
  appCoverage : Option String := none
  serverTotal : Option ℚ := none
  serverCovered : Option ℚ := none
  appTotal : Option ℚ := none
  appCovered : Option ℚ := none
  accuracy : String := "high"
  discoveryRate : String := "high"
  opsLeadConfigured : String := "missing"
  dataMonitorConfigured : String := "na"
  missingMonitorItems : ℚ := 0
  lateResponseCount : ℚ := 0
  overdueCount : ℚ := 0
  alertTotal : Option ℚ := none
  falseAlertTotal : Option ℚ := none
  faultTotal : Option ℚ := none
  faultDetectedTotal : Option ℚ := none
  accuracyRate : Option ℚ := none
  discoveryRatePct : Option ℚ := none

/-- ScoreDetail (lines 67-79): the scoring result value object. -/
@[ext]
structure ScoreDetail where
  part1 : ℚ
  part2 : ℚ
  part3 : ℚ
  part4 : ℚ
  total : ℚ
  missingCaps : List String
  packageLevel : String
  accuracyRatePct : ℚ
  discoveryRatePct : ℚ
  accuracyScore : ℚ
  discoveryScore : ℚ

/-- MANDATORY_CAPS (line 92): the five mandatory capability categories, in
their fixed enumeration order. -/
def MANDATORY_CAPS : List String := ["host", "process", "network", "db", "trans"]

/-- JS Math.max on two numbers (NaN aside, equal to the order-theoretic max). -/
def jsMax (a b : ℚ) : ℚ := if a ≤ b then b else a

/-- JS Math.min on two numbers (NaN aside, equal to the order-theoretic min). -/
def jsMin (a b : ℚ) : ℚ := if a ≤ b then a else b

/-- Substring test on character lists: JS String.prototype.includes. -/
def listIncludes (pat : List Char) : List Char → Bool
  | [] => pat.isPrefixOf []
  | c :: rest => pat.isPrefixOf (c :: rest) || listIncludes pat rest

/-- JS s.includes(pat). -/
def strIncludes (s pat : String) : Bool :=
  listIncludes pat.data s.data

/-- JS r.when?.includes(pat): an absent field is falsy. -/
def whenIncludes (r : RuleEntry) (pat : String) : Bool :=
  match r.whenCond with
  | some w => strIncludes w pat
  | none => false

/-- ruleById (lines 240-243): flatten dimension items and find by id. -/
def ruleById (rd : RuleData) (rid : String) : Option RuleItem :=
  ((rd.dimensions.map (fun d => d.items.getD [])).flatten).find? (fun i => i.id == rid)

/-- JS pattern ruleItem?.rules?.find(r => r.when?.includes(pat)). -/
def ruleFind (rd : RuleData) (rid : String) (pat : String) : Option RuleEntry :=
  ((ruleById rd rid).bind (fun i => i.rules)).bind
    (fun rs => rs.find? (fun r => whenIncludes r pat))

/-- deriveAccuracyRate (lines 401-411): explicit rate wins; else from alert
counts, with alertTotal at most 0 giving rate 0; else a qualitative map. -/
def deriveAccuracyRate (data : SystemData) : ℚ :=
  match data.accuracyRate with
  | some r => r
  | none =>
    match data.alertTotal with
    | some total =>
      if total ≤ 0 then 0
      else jsMax 0 (jsMin 1 ((total - jsMax 0 ((data.falseAlertTotal).getD 0)) / total))
    | none =>
      if data.accuracy = "perfect" then 0.995
      else if data.accuracy = "high" then 0.96
      else if data.accuracy = "medium" then 0.92
      else 0.89

/-- deriveDiscoveryRate (lines 413-422): explicit rate wins; faultTotal
positive gives the detected ratio, faultTotal exactly 0 gives rate 1; any
other case (faultTotal absent or negative) uses the qualitative map. -/
def deriveDiscoveryRate (data : SystemData) : ℚ :=
  match data.discoveryRatePct with
  | some r => r
  | none =>
    match data.faultTotal with
    | some ft =>
      if 0 < ft then jsMax 0 (jsMin 1 (jsMax 0 ((data.faultDetectedTotal).getD 0) / ft))
      else if ft = 0 then 1
      else
        if data.discoveryRate = "perfect" then 0.995
        else if data.discoveryRate = "high" then 0.96
        else if data.discoveryRate = "medium" then 0.9
        else 0.8
    | none =>
      if data.discoveryRate = "perfect" then 0.995
      else if data.discoveryRate = "high" then 0.96
      else if data.discoveryRate = "medium" then 0.9
      else 0.8

/-- deriveCoverageLevel (lines 424-431): tiered level from covered / total,
with a zero or non-positive total giving the lowest tier. -/
def deriveCoverageLevel (covered total : ℚ) : String :=
  if total ≤ 0 then "low"
  else if 0.95 ≤ covered / total then "full"
  else if 0.7 ≤ covered / total then "basic"
  else if 0.5 ≤ covered / total then "partial"
  else "low"

/-- The object literal { full: 0, basic: 3, partial: 7, low: 10 } used for the
server and application infrastructure deductions (lines 489-490). The level
argument always comes from deriveCoverageLevel, so the JS fallback
(serverLevel || data.serverCoverage) is dead code: a non-empty string literal
is always truthy, and deriveCoverageLevel always returns one. -/
def levelDeduct (level : String) : ℚ :=
  if level = "full" then 0
  else if level = "basic" then 3
  else if level = "partial" then 7
  else 10

/-- selectedWithCaps (lines 458-460): selected tool ids whose granted
capability list is non-empty. -/
def selectedWithCaps (data : SystemData) : List String :=
  data.selectedToolIds.filter (fun tid => decide (0 < (data.toolCapabilities tid).length))

/-- Membership in the covered-capability set built at lines 462-465. -/
def coveredB (data : SystemData) (c : String) : Bool :=
  (selectedWithCaps data).any (fun tid => (data.toolCapabilities tid).contains c)

/-- missingCaps (line 466): mandatory capabilities not covered, enumerated in
MANDATORY_CAPS order. -/
def missingCapsOf (data : SystemData) : List String :=
  MANDATORY_CAPS.filter (fun c => !(coveredB data c))

/-- coveragePct (line 469). -/
def coveragePctOf (data : SystemData) : ℚ :=
  ((MANDATORY_CAPS.length : ℚ) - ((missingCapsOf data).length : ℚ)) / (MANDATORY_CAPS.length : ℚ)

/-- packageLevel side of the tier chain at lines 470-483. -/
def packageLevelOf (pct : ℚ) : String :=
  if pct = 1 then "full"
  else if 0.7 ≤ pct then "basic"
  else if 0.5 ≤ pct then "partial"
  else "low"

/-- pkgDeduct side of the tier chain at lines 470-483. -/
def pkgDeductOf (pct : ℚ) : ℚ :=
  if pct = 1 then 0
  else if 0.7 ≤ pct then 3
  else if 0.5 ≤ pct then 7
  else 10

/-- score1 (lines 485-499): base 45, package tier deduction, 10 per missing
mandatory capability, server and application coverage deductions, +5 when
self-built. -/
def score1Of (data : SystemData) : ℚ :=
  45 - pkgDeductOf (coveragePctOf data)
    - 10 * ((missingCapsOf data).length : ℚ)
    - levelDeduct (deriveCoverageLevel ((data.serverCovered).getD 0) ((data.serverTotal).getD 0))
    - levelDeduct (deriveCoverageLevel ((data.appCovered).getD 0) ((data.appTotal).getD 0))
    + (if data.isSelfBuilt then 5 else 0)

/-- basePoints of the standardization rule (line 522), default 10. -/
def basePointsOf (rd : RuleData) : ℚ :=
  ((ruleById rd "standardization").bind (fun i => i.basePoints)).getD 10

/-- Tiered standardization deduction (lines 514-521): first-match chain over
the when-string predicates of the deductionRules array, fallback 10. -/
def standardDeductOf (rd : RuleData) (pct : ℚ) : ℚ :=
  let dr := ((ruleById rd "standardization").bind (fun i => i.deductionRules)).getD []
  (((((dr.find? (fun r => decide (1 ≤ pct) && whenIncludes r ">= 1")).bind (fun r => r.deduct)).orElse
    (fun _ => (dr.find? (fun r => decide ((0.7 : ℚ) ≤ pct) && whenIncludes r ">= 0.7")).bind (fun r => r.deduct))).orElse
    (fun _ => (dr.find? (fun r => decide ((0.5 : ℚ) ≤ pct) && whenIncludes r ">= 0.5")).bind (fun r => r.deduct))).orElse
    (fun _ => (dr.find? (fun r => decide ((0.3 : ℚ) ≤ pct) && whenIncludes r ">= 0.3")).bind (fun r => r.deduct))).orElse
    (fun _ => (dr.find? (fun r => whenIncludes r "< 0.3")).bind (fun r => r.deduct))
  |>.getD 10

/-- Per-capability term of the standardization average (lines 509-524): a pair
with zero relevant scenarios yields no term, otherwise one floored score. -/
def capTerm (rd : RuleData) (data : SystemData) (tool : MonitorTool) (cap : String) : List ℚ :=
  let relevant := tool.scenarios.filter (fun s => s.category == cap)
  if relevant.length = 0 then []
  else
    let checked := (relevant.filter (fun s => data.checkedScenarioIds.contains s.id)).length
    let pct : ℚ := (checked : ℚ) / (relevant.length : ℚ)
    [jsMax 0 (basePointsOf rd - standardDeductOf rd pct)]

/-- Per-tool contribution to capScores (lines 505-525): an unresolved tool id
contributes nothing. -/
def toolTerms (rd : RuleData) (data : SystemData) (tools : List MonitorTool) (tid : String) : List ℚ :=
  match tools.find? (fun t => t.id == tid) with
  | none => []
  | some tool => (data.toolCapabilities tid).flatMap (fun cap => capTerm rd data tool cap)

/-- The capScores list built at lines 503-525. -/
def pairScores (rd : RuleData) (data : SystemData) (tools : List MonitorTool) : List ℚ :=
  (selectedWithCaps data).flatMap (toolTerms rd data tools)

/-- score1_2 (lines 502-529): the standardization average over participating
pairs, 0 when there are none. -/
def score1_2Of (rd : RuleData) (data : SystemData) (tools : List MonitorTool) : ℚ :=
  if 0 < (selectedWithCaps data).length then
    let cs := pairScores rd data tools
    if 0 < cs.length then cs.sum / (cs.length : ℚ) else 0
  else 0

/-- bonusPerItem of the documentation rule (lines 531-532), default 1. -/
def docBonusPer (rd : RuleData) : ℚ :=
  ((((ruleById rd "documentation").bind (fun i => i.rules)).bind (fun rs => rs.head?)).bind
    (fun r => r.bonusPerItem)).getD 1

/-- cap of the documentation rule (line 533), default 5. -/
def docCap (rd : RuleData) : ℚ :=
  ((((ruleById rd "documentation").bind (fun i => i.rules)).bind (fun rs => rs.head?)).bind
    (fun r => r.cap)).getD 5

/-- score1_3 (line 534): capped, floored documentation bonus. -/
def score1_3Of (rd : RuleData) (data : SystemData) : ℚ :=
  jsMin (docCap rd) (jsMax 0 (data.documentedItems * docBonusPer rd))

/-- Math.round(x * 10) / 10, rounding half toward positive infinity exactly as
JS Math.round does (Mathlib round is the floor of x + 1/2). -/
def round1 (x : ℚ) : ℚ :=
  ((round (x * 10) : ℤ) : ℚ) / 10

/-- part1 (line 536): clamped to [0, 60] in revision 1. -/
def part1Of (rd : RuleData) (data : SystemData) (tools : List MonitorTool) : ℚ :=
  jsMax 0 (jsMin 60 (round1 (score1Of data + score1_2Of rd data tools + score1_3Of rd data)))

/-- The shared accuracy / discovery tier function (lines 540-545, 550-555). -/
def rateScore (r : ℚ) : ℚ :=
  if 0.95 ≤ r then 10
  else if 0.85 ≤ r then 7
  else if 0.7 ≤ r then 3
  else 0

/-- Ops-lead contribution to part 3 (lines 561-563): a rule-table score wins
unconditionally when present, else 5 for a "full" flag and 0 otherwise. -/
def opsLeadScore (rd : RuleData) (data : SystemData) : ℚ :=
  ((ruleFind rd "ops_leads" "opsLeadConfigured == true").bind (fun r => r.score)).getD
    (if data.opsLeadConfigured = "full" then 5 else 0)

/-- Data-monitor contribution to part 3 (lines 565-589): tri-state on
dataMonitorConfigured; the "full" state uses the capped, floored formula only
when the rule table carries a truthy deductPerItem, else the uncapped
5 - missingMonitorItems; the "missing" state always uses the capped, floored
formula with an implicit per-item deduction of 1; "na" uses a flat rule-table
score, default 0. -/
def dataMonitorScore (rd : RuleData) (data : SystemData) : ℚ :=
  if data.dataMonitorConfigured = "full" then
    if ((ruleFind rd "data_alert_recipients" "dataMonitorEnabled == true").bind
        (fun r => r.deductPerItem)).getD 0 ≠ 0 then
      jsMax 0 (5 - jsMin
        (((ruleFind rd "data_alert_recipients" "deductPerItem").bind (fun r => r.capDeduct)).getD 5)
        ((((ruleFind rd "data_alert_recipients" "deductPerItem").bind (fun r => r.deductPerItem)).getD 1)
          * data.missingMonitorItems))
    else 5 - data.missingMonitorItems
  else if data.dataMonitorConfigured = "missing" then
    jsMax 0 (5 - jsMin
      (((ruleFind rd "data_alert_recipients" "deductPerItem").bind (fun r => r.capDeduct)).getD 5)
      data.missingMonitorItems)
  else if data.dataMonitorConfigured = "na" then
    ((ruleFind rd "data_alert_recipients" "dataMonitorEnabled == false").bind (fun r => r.score)).getD 0
  else 0

/-- Response deduction per late item (lines 592-593), default 2.5. -/
def responseDeductPer (rd : RuleData) : ℚ :=
  ((ruleFind rd "response" "lateResponseCount").bind (fun r => r.deductPerItem)).getD 2.5

/-- Response deduction cap (lines 594-595), default 5. -/
def responseCap (rd : RuleData) : ℚ :=
  ((ruleFind rd "response" "lateResponseCount").bind (fun r => r.capDeduct)).getD 5

/-- Rectification deduction per overdue item (lines 596-597), default 1. -/
def rectDeductPer (rd : RuleData) : ℚ :=
  ((ruleFind rd "rectification" "overdueRectificationCount").bind (fun r => r.deductPerItem)).getD 1

/-- Rectification deduction cap (lines 598-599), default 5. -/
def rectCap (rd : RuleData) : ℚ :=
  ((ruleFind rd "rectification" "overdueRectificationCount").bind (fun r => r.capDeduct)).getD 5

/-- calculateScore, revision 1 (lines 433-609). -/
def calculateScore (rd : RuleData) (data : SystemData) (tools : List MonitorTool) : ScoreDetail :=
  let part1 := part1Of rd data tools
  let accRate := deriveAccuracyRate data
  let accScore := rateScore accRate
  let discRate := deriveDiscoveryRate data
  let discScore := rateScore discRate
  let part2 := jsMax 0 (accScore + discScore)
  let part3 := jsMax 0 (opsLeadScore rd data + dataMonitorScore rd data)
  let part4 := jsMax 0
    (jsMax 0 (5 - jsMin (responseCap rd) (data.lateResponseCount * responseDeductPer rd))
      + jsMax 0 (5 - jsMin (rectCap rd) (data.overdueCount * rectDeductPer rd)))
  { part1 := part1
    part2 := part2
    part3 := part3
    part4 := part4
    total := jsMax 0 (round1 (part1 + part2 + part3 + part4))
    missingCaps := missingCapsOf data
    packageLevel := packageLevelOf (coveragePctOf data)
    accuracyRatePct := accRate * 100
    discoveryRatePct := discRate * 100
    accuracyScore := accScore
    discoveryScore := discScore }

/-- Covered-capability membership of revision 2 (lines 2860-2863): the union
ranges over all selected tool ids, not only those with capabilities; a tool
with an empty grant list contributes nothing either way. -/
def coveredBV2 (data : SystemData) (c : String) : Bool :=
  data.selectedToolIds.any (fun tid => (data.toolCapabilities tid).contains c)

/-- missingCaps of revision 2 (line 2864). -/
def missingCapsV2Of (data : SystemData) : List String :=
  MANDATORY_CAPS.filter (fun c => !(coveredBV2 data c))

/-- coveragePct of revision 2 (line 2867). -/
def coveragePctV2Of (data : SystemData) : ℚ :=
  ((MANDATORY_CAPS.length : ℚ) - ((missingCapsV2Of data).length : ℚ)) / (MANDATORY_CAPS.length : ℚ)

/-- score1 of revision 2 (lines 2892-2897), same shape as revision 1 but over
the revision-2 missing-capability list. -/
def score1V2Of (data : SystemData) : ℚ :=
  45 - pkgDeductOf (coveragePctV2Of data)
    - 10 * ((missingCapsV2Of data).length : ℚ)
    - levelDeduct (deriveCoverageLevel ((data.serverCovered).getD 0) ((data.serverTotal).getD 0))
    - levelDeduct (deriveCoverageLevel ((data.appCovered).getD 0) ((data.appTotal).getD 0))
    + (if data.isSelfBuilt then 5 else 0)

/-- Per-tool term of revision 2 (lines 2902-2922): an unresolved tool adds 0
but still counts in the denominator; a resolved tool with no scenario in any
enabled capability adds a full 10; otherwise the tiered floored score over
the merged relevant-scenario list. -/
def termV2 (rd : RuleData) (data : SystemData) (tools : List MonitorTool) (tid : String) : ℚ :=
  match tools.find? (fun t => t.id == tid) with
  | none => 0
  | some tool =>
    let enabledCaps := data.toolCapabilities tid
    let relevant := tool.scenarios.filter (fun s => enabledCaps.contains s.category)
    if relevant.length = 0 then 10
    else
      let checked := (relevant.filter (fun s => data.checkedScenarioIds.contains s.id)).length
      let pct : ℚ := (checked : ℚ) / (relevant.length : ℚ)
      jsMax 0 (basePointsOf rd - standardDeductOf rd pct)

/-- score1_2 of revision 2 (lines 2899-2924): sum of per-tool terms divided by
the number of selected tool ids. -/
def score1_2V2Of (rd : RuleData) (data : SystemData) (tools : List MonitorTool) : ℚ :=
  if 0 < data.selectedToolIds.length then
    ((data.selectedToolIds.map (termV2 rd data tools)).sum) / (data.selectedToolIds.length : ℚ)
  else 0

/-- part1 of revision 2 (line 2931): capped at 60 but not floored at 0. -/
def part1V2Of (rd : RuleData) (data : SystemData) (tools : List MonitorTool) : ℚ :=
  jsMin 60 (round1 (score1V2Of data + score1_2V2Of rd data tools + score1_3Of rd data))

/-- calculateScore, revision 2 (lines 2835-3002): identical helpers except for
the covered-capability base list, the standardization aggregation, the
missing part1 floor, the missing part2 floor, the missing outer part4 floor
and the missing total floor. -/
def calculateScoreV2 (rd : RuleData) (data : SystemData) (tools : List MonitorTool) : ScoreDetail :=
  let part1 := part1V2Of rd data tools
  let accRate := deriveAccuracyRate data
  let accScore := rateScore accRate
  let discRate := deriveDiscoveryRate data
  let discScore := rateScore discRate
  let part2 := accScore + discScore
  let part3 := jsMax 0 (opsLeadScore rd data + dataMonitorScore rd data)
  let part4 :=
    jsMax 0 (5 - jsMin (responseCap rd) (data.lateResponseCount * responseDeductPer rd))
      + jsMax 0 (5 - jsMin (rectCap rd) (data.overdueCount * rectDeductPer rd))
  { part1 := part1
    part2 := part2
    part3 := part3
    part4 := part4
    total := round1 (part1 + part2 + part3 + part4)
    missingCaps := missingCapsV2Of data
    packageLevel := packageLevelOf (coveragePctV2Of data)
    accuracyRatePct := accRate * 100
    discoveryRatePct := discRate * 100
    accuracyScore := accScore
    discoveryScore := discScore }

/-- Modelled from the spec: the rule table rules/score_rules_v1.json is
imported by src/src/app/page.tsx but the file itself is not in the sources.
Its contents follow the spec: standardization basePoints 10 with tiered
deductions keyed by when-strings (fully covered 0, at least 0.7 gives 3 per
section 8.7; the 0.5 and 0.3 tier magnitudes are not fixed by the spec and
representative values are used - no claim depends on them); documentation
bonusPerItem 1 and cap 5; data_alert_recipients carrying deductPerItem 1 and
capDeduct 5 for the enabled state and a flat 0 for the disabled state
(section 4.2 part 3); response deductPerItem 2.5 and cap 5; rectification
deductPerItem 1 and cap 5; ops_leads left to the engine default of 5 when the
flag is set (section 4.2 part 3). -/
def scoreRulesV1 : RuleData :=
  { dimensions := [
    { items := some [
      { id := "integrity_package" },
      { id := "standardization",
        basePoints := some 10,
        deductionRules := some [
          { whenCond := some "coverage >= 1", deduct := some 0 },
          { whenCond := some "coverage >= 0.7", deduct := some 3 },
          { whenCond := some "coverage >= 0.5", deduct := some 7 },
          { whenCond := some "coverage >= 0.3", deduct := some 8 },
          { whenCond := some "coverage < 0.3", deduct := some 10 } ] },
      { id := "documentation",
        rules := some [ { bonusPerItem := some 1, cap := some 5 } ] },
      { id := "accuracy" },
      { id := "discovery_rate" },
      { id := "ops_leads" },
      { id := "data_alert_recipients",
        rules := some [
          { whenCond := some "dataMonitorEnabled == true, deduct deductPerItem per missing item",
            deductPerItem := some 1, capDeduct := some 5 },
          { whenCond := some "dataMonitorEnabled == false", score := some 0 } ] },
      { id := "response",
        rules := some [
          { whenCond := some "lateResponseCount over threshold",
            deductPerItem := some 2.5, capDeduct := some 5 } ] },
      { id := "rectification",
        rules := some [
          { whenCond := some "overdueRectificationCount over threshold",
            deductPerItem := some 1, capDeduct := some 5 } ] } ] } ] }

/-- Removing one granted capability of one tool from a configuration (the
toolCapabilities record is updated pointwise; all occurrences are removed). -/
def removeCap (data : SystemData) (tid cap : String) : SystemData :=
  { data with toolCapabilities := fun t =>
      if t = tid then (data.toolCapabilities t).filter (fun c => c != cap)
      else data.toolCapabilities t }

/-- Removing a tool id from a configuration: the id leaves selectedToolIds and
its toolCapabilities entry is cleared. -/
def removeToolFully (data : SystemData) (tid : String) : SystemData :=
  { data with
      selectedToolIds := data.selectedToolIds.filter (fun t => t != tid),
      toolCapabilities := fun t => if t = tid then [] else data.toolCapabilities t }

/-- Replacing only the documentedItems field. -/
def setDocumentedItems (data : SystemData) (n : ℚ) : SystemData :=
  { data with documentedItems := n }

/-- Replacing only the two stored qualitative coverage-level fields. -/
def setCoverageFields (data : SystemData) (sc : String) (ac : Option String) : SystemData :=
  { data with serverCoverage := sc, appCoverage := ac }

/-- Concrete configuration for the revision-2 bound violation: nothing
selected, no infrastructure counts, zero alerts, zero detected faults, enough
late and overdue items to zero part 4. -/
def sysC1cex : SystemData :=
  { alertTotal := some 0, faultTotal := some 5, faultDetectedTotal := some 0,
    lateResponseCount := 2, overdueCount := 5 }

/-- A catalog tool carrying no scenarios at all. -/
def toolC3cex : MonitorTool := { id := "T2" }

/-- A configuration selecting toolC3cex with the db capability granted. -/
def sysC3cex : SystemData :=
  { selectedToolIds := ["T2"],
    toolCapabilities := fun t => if t = "T2" then ["db"] else [] }

/-- A configuration whose only selected tool id resolves to nothing in the
catalog while granting all five mandatory capabilities. -/
def sysC4cex : SystemData :=
  { selectedToolIds := ["ghost"],
    toolCapabilities := fun t => if t = "ghost" then MANDATORY_CAPS else [],
    serverTotal := some 1, serverCovered := some 1, appTotal := some 1, appCovered := some 1,
    alertTotal := some 0, faultTotal := some 5, faultDetectedTotal := some 0,
    lateResponseCount := 2, overdueCount := 5 }

/-- A configuration selecting one catalog-resolvable tool id and one dangling
tool id, both with empty capability grants. -/
def sysC4ghost2 : SystemData := { selectedToolIds := ["T2", "ghost"] }

set_option maxRecDepth 40000

theorem jsMax_eq_max (a b : ℚ) : jsMax a b = max a b := by
  unfold jsMax
  split_ifs with h
  · exact (max_eq_right h).symm
  · exact (max_eq_left (le_of_not_le h)).symm

theorem jsMin_eq_min (a b : ℚ) : jsMin a b = min a b := by
  unfold jsMin
  split_ifs with h
  · exact (min_eq_left h).symm
  · exact (min_eq_right (le_of_not_le h)).symm

theorem round1_mono {a b : ℚ} (h : a ≤ b) : round1 a ≤ round1 b := by
  unfold round1
  have hr : round (a * 10) ≤ round (b * 10) := by
    rw [round_eq, round_eq]
    exact Int.floor_mono (by linarith)
  have hc : ((round (a * 10) : ℤ) : ℚ) ≤ ((round (b * 10) : ℤ) : ℚ) := by exact_mod_cast hr
  exact div_le_div_of_nonneg_right hc (by norm_num) |>.trans_eq rfl

theorem round1_zero : round1 0 = 0 := by
  norm_num [round1]

theorem round1_nonneg {a : ℚ} (h : 0 ≤ a) : 0 ≤ round1 a := by
  have := round1_mono h
  rwa [round1_zero] at this

theorem rateScore_nonneg (r : ℚ) : 0 ≤ rateScore r := by
  unfold rateScore
  split_ifs <;> norm_num

theorem rateScore_le_ten (r : ℚ) : rateScore r ≤ 10 := by
  unfold rateScore
  split_ifs <;> norm_num

theorem calculateScore_part1 (rd : RuleData) (data : SystemData) (tools : List MonitorTool) :
    (calculateScore rd data tools).part1 = part1Of rd data tools := rfl

theorem calculateScore_part2 (rd : RuleData) (data : SystemData) (tools : List MonitorTool) :
    (calculateScore rd data tools).part2 =
      jsMax 0 (rateScore (deriveAccuracyRate data) + rateScore (deriveDiscoveryRate data)) := rfl

theorem calculateScore_part3 (rd : RuleData) (data : SystemData) (tools : List MonitorTool) :
    (calculateScore rd data tools).part3 =
      jsMax 0 (opsLeadScore rd data + dataMonitorScore rd data) := rfl

theorem calculateScore_part4 (rd : RuleData) (data : SystemData) (tools : List MonitorTool) :
    (calculateScore rd data tools).part4 =
      jsMax 0
        (jsMax 0 (5 - jsMin (responseCap rd) (data.lateResponseCount * responseDeductPer rd))
          + jsMax 0 (5 - jsMin (rectCap rd) (data.overdueCount * rectDeductPer rd))) := rfl

theorem calculateScore_total (rd : RuleData) (data : SystemData) (tools : List MonitorTool) :
    (calculateScore rd data tools).total =
      jsMax 0 (round1 ((calculateScore rd data tools).part1 + (calculateScore rd data tools).part2
        + (calculateScore rd data tools).part3 + (calculateScore rd data tools).part4)) := rfl

theorem calculateScore_missingCaps (rd : RuleData) (data : SystemData) (tools : List MonitorTool) :
    (calculateScore rd data tools).missingCaps = missingCapsOf data := rfl

theorem calculateScore_accuracyRatePct (rd : RuleData) (data : SystemData) (tools : List MonitorTool) :
    (calculateScore rd data tools).accuracyRatePct = deriveAccuracyRate data * 100 := rfl

theorem calculateScore_discoveryRatePct (rd : RuleData) (data : SystemData) (tools : List MonitorTool) :
    (calculateScore rd data tools).discoveryRatePct = deriveDiscoveryRate data * 100 := rfl

theorem calculateScore_accuracyScore (rd : RuleData) (data : SystemData) (tools : List MonitorTool) :
    (calculateScore rd data tools).accuracyScore = rateScore (deriveAccuracyRate data) := rfl

theorem calculateScore_discoveryScore (rd : RuleData) (data : SystemData) (tools : List MonitorTool) :
    (calculateScore rd data tools).discoveryScore = rateScore (deriveDiscoveryRate data) := rfl

theorem calculateScoreV2_part1 (rd : RuleData) (data : SystemData) (tools : List MonitorTool) :
    (calculateScoreV2 rd data tools).part1 = part1V2Of rd data tools := rfl

theorem calculateScoreV2_part2 (rd : RuleData) (data : SystemData) (tools : List MonitorTool) :
    (calculateScoreV2 rd data tools).part2 =
      rateScore (deriveAccuracyRate data) + rateScore (deriveDiscoveryRate data) := rfl

theorem calculateScoreV2_part3 (rd : RuleData) (data : SystemData) (tools : List MonitorTool) :
    (calculateScoreV2 rd data tools).part3 =
      jsMax 0 (opsLeadScore rd data + dataMonitorScore rd data) := rfl

theorem calculateScoreV2_part4 (rd : RuleData) (data : SystemData) (tools : List MonitorTool) :
    (calculateScoreV2 rd data tools).part4 =
      jsMax 0 (5 - jsMin (responseCap rd) (data.lateResponseCount * responseDeductPer rd))
        + jsMax 0 (5 - jsMin (rectCap rd) (data.overdueCount * rectDeductPer rd)) := rfl

theorem calculateScoreV2_total (rd : RuleData) (data : SystemData) (tools : List MonitorTool) :
    (calculateScoreV2 rd data tools).total =
      round1 ((calculateScoreV2 rd data tools).part1 + (calculateScoreV2 rd data tools).part2
        + (calculateScoreV2 rd data tools).part3 + (calculateScoreV2 rd data tools).part4) := rfl

theorem calculateScoreV2_missingCaps (rd : RuleData) (data : SystemData) (tools : List MonitorTool) :
    (calculateScoreV2 rd data tools).missingCaps = missingCapsV2Of data := rfl

theorem basePointsOf_rulesV1 : basePointsOf scoreRulesV1 = 10 := rfl

theorem docBonusPer_rulesV1 : docBonusPer scoreRulesV1 = 1 := rfl

theorem docCap_rulesV1 : docCap scoreRulesV1 = 5 := rfl

theorem responseDeductPer_rulesV1 : responseDeductPer scoreRulesV1 = 2.5 := rfl

theorem responseCap_rulesV1 : responseCap scoreRulesV1 = 5 := rfl

theorem rectDeductPer_rulesV1 : rectDeductPer scoreRulesV1 = 1 := rfl

theorem rectCap_rulesV1 : rectCap scoreRulesV1 = 5 := rfl

theorem opsLeadScore_rulesV1 (data : SystemData) :
    opsLeadScore scoreRulesV1 data = (if data.opsLeadConfigured = "full" then 5 else 0) := rfl

/-- C1: the spec asserts 0 ≤ part1 ≤ 60, 0 ≤ part2 ≤ 20, part3 ≥ 0, part4 ≥ 0,
total ≥ 0 and total = round1(part1+part2+part3+part4) for every input. This
holds in full for the first (clamped) revision of calculateScore, for every
rule table, configuration and catalog; for the concatenated second revision,
part1 is only capped above and the total is not floored, so only the
remaining bounds hold (see the counterexample for the violated ones). -/
theorem C1_bounds_amended :
    (∀ (rd : RuleData) (data : SystemData) (tools : List MonitorTool),
      0 ≤ (calculateScore rd data tools).part1 ∧
      (calculateScore rd data tools).part1 ≤ 60 ∧
      0 ≤ (calculateScore rd data tools).part2 ∧
      (calculateScore rd data tools).part2 ≤ 20 ∧
      0 ≤ (calculateScore rd data tools).part3 ∧
      0 ≤ (calculateScore rd data tools).part4 ∧
      0 ≤ (calculateScore rd data tools).total ∧
      (calculateScore rd data tools).total =
        round1 ((calculateScore rd data tools).part1 + (calculateScore rd data tools).part2
          + (calculateScore rd data tools).part3 + (calculateScore rd data tools).part4)) ∧
    (∀ (rd : RuleData) (data : SystemData) (tools : List MonitorTool),
      (calculateScoreV2 rd data tools).part1 ≤ 60 ∧
      0 ≤ (calculateScoreV2 rd data tools).part2 ∧
      (calculateScoreV2 rd data tools).part2 ≤ 20 ∧
      0 ≤ (calculateScoreV2 rd data tools).part3 ∧
      0 ≤ (calculateScoreV2 rd data tools).part4 ∧
      (calculateScoreV2 rd data tools).total =
        round1 ((calculateScoreV2 rd data tools).part1 + (calculateScoreV2 rd data tools).part2
          + (calculateScoreV2 rd data tools).part3 + (calculateScoreV2 rd data tools).part4)) := by
  constructor
  · intro rd data tools
    have h1 : 0 ≤ (calculateScore rd data tools).part1 := by
      rw [calculateScore_part1]
      unfold part1Of
      rw [jsMax_eq_max]
      exact le_max_left 0 _
    have h1b : (calculateScore rd data tools).part1 ≤ 60 := by
      rw [calculateScore_part1]
      unfold part1Of
      rw [jsMax_eq_max, jsMin_eq_min]
      exact max_le (by norm_num) (min_le_left _ _)
    have h2 : 0 ≤ (calculateScore rd data tools).part2 := by
      rw [calculateScore_part2, jsMax_eq_max]
      exact le_max_left 0 _
    have h2b : (calculateScore rd data tools).part2 ≤ 20 := by
      rw [calculateScore_part2, jsMax_eq_max]
      have ha := rateScore_le_ten (deriveAccuracyRate data)
      have hb := rateScore_le_ten (deriveDiscoveryRate data)
      exact max_le (by norm_num) (by linarith)
    have h3 : 0 ≤ (calculateScore rd data tools).part3 := by
      rw [calculateScore_part3, jsMax_eq_max]
      exact le_max_left 0 _
    have h4 : 0 ≤ (calculateScore rd data tools).part4 := by
      rw [calculateScore_part4, jsMax_eq_max]
      exact le_max_left 0 _
    have hsum : 0 ≤ (calculateScore rd data tools).part1 + (calculateScore rd data tools).part2
        + (calculateScore rd data tools).part3 + (calculateScore rd data tools).part4 := by
      linarith
    have htot : (calculateScore rd data tools).total =
        round1 ((calculateScore rd data tools).part1 + (calculateScore rd data tools).part2
          + (calculateScore rd data tools).part3 + (calculateScore rd data tools).part4) := by
      rw [calculateScore_total, jsMax_eq_max]
      exact max_eq_right (round1_nonneg hsum)
    have htot0 : 0 ≤ (calculateScore rd data tools).total := by
      rw [htot]
      exact round1_nonneg hsum
    exact ⟨h1, h1b, h2, h2b, h3, h4, htot0, htot⟩
  · intro rd data tools
    have h1b : (calculateScoreV2 rd data tools).part1 ≤ 60 := by
      rw [calculateScoreV2_part1]
      unfold part1V2Of
      rw [jsMin_eq_min]
      exact min_le_left _ _
    have h2 : 0 ≤ (calculateScoreV2 rd data tools).part2 := by
      rw [calculateScoreV2_part2]
      exact add_nonneg (rateScore_nonneg _) (rateScore_nonneg _)
    have h2b : (calculateScoreV2 rd data tools).part2 ≤ 20 := by
      rw [calculateScoreV2_part2]
      have ha := rateScore_le_ten (deriveAccuracyRate data)
      have hb := rateScore_le_ten (deriveDiscoveryRate data)
      linarith
    have h3 : 0 ≤ (calculateScoreV2 rd data tools).part3 := by
      rw [calculateScoreV2_part3, jsMax_eq_max]
      exact le_max_left 0 _
    have h4 : 0 ≤ (calculateScoreV2 rd data tools).part4 := by
      rw [calculateScoreV2_part4, jsMax_eq_max, jsMax_eq_max]
      exact add_nonneg (le_max_left 0 _) (le_max_left 0 _)
    exact ⟨h1b, h2, h2b, h3, h4, calculateScoreV2_total rd data tools⟩

theorem levelDeduct_low : levelDeduct "low" = 10 := rfl

theorem levelDeduct_full : levelDeduct "full" = 0 := rfl

theorem deriveCoverageLevel_nonpos (covered total : ℚ) (h : total ≤ 0) :
    deriveCoverageLevel covered total = "low" := by
  unfold deriveCoverageLevel
  rw [if_pos h]

/-- C1 counterexample: on the second revision of calculateScore, a
configuration with no tools, no infrastructure counts, zero measured alerts,
no detected faults and saturated late/overdue counts returns part1 = -35 and
total = -35, violating the claimed bounds 0 ≤ part1 and 0 ≤ total. -/
theorem C1_counterexample :
    (calculateScoreV2 scoreRulesV1 sysC1cex []).part1 = -35 ∧
    (calculateScoreV2 scoreRulesV1 sysC1cex []).total = -35 := by
  have hmc : missingCapsV2Of sysC1cex = MANDATORY_CAPS := rfl
  have hpct : coveragePctV2Of sysC1cex = 0 := by
    unfold coveragePctV2Of
    rw [hmc]
    norm_num [MANDATORY_CAPS]
  have hs1 : score1V2Of sysC1cex = -35 := by
    unfold score1V2Of
    rw [hmc, hpct]
    simp only [sysC1cex, Option.getD_none]
    rw [deriveCoverageLevel_nonpos 0 0 le_rfl, levelDeduct_low]
    norm_num [pkgDeductOf, MANDATORY_CAPS]
  have h12 : score1_2V2Of scoreRulesV1 sysC1cex [] = 0 := rfl
  have h13 : score1_3Of scoreRulesV1 sysC1cex = 0 := by
    unfold score1_3Of
    rw [docCap_rulesV1, docBonusPer_rulesV1]
    show jsMin 5 (jsMax 0 (sysC1cex.documentedItems * 1)) = 0
    norm_num [jsMin, jsMax, sysC1cex]
  have hpart1 : (calculateScoreV2 scoreRulesV1 sysC1cex []).part1 = -35 := by
    rw [calculateScoreV2_part1]
    unfold part1V2Of
    rw [hs1, h12, h13]
    norm_num [round1, round_eq, jsMin]
  have hacc : deriveAccuracyRate sysC1cex = 0 := by
    simp [deriveAccuracyRate, sysC1cex]
  have hdisc : deriveDiscoveryRate sysC1cex = 0 := by
    simp [deriveDiscoveryRate, sysC1cex, jsMax, jsMin]
  have hops : opsLeadScore scoreRulesV1 sysC1cex = 0 := rfl
  have hdm : dataMonitorScore scoreRulesV1 sysC1cex = 0 := rfl
  have hpart2 : (calculateScoreV2 scoreRulesV1 sysC1cex []).part2 = 0 := by
    rw [calculateScoreV2_part2, hacc, hdisc]
    norm_num [rateScore]
  have hpart3 : (calculateScoreV2 scoreRulesV1 sysC1cex []).part3 = 0 := by
    rw [calculateScoreV2_part3, hops, hdm]
    norm_num [jsMax]
  have hpart4 : (calculateScoreV2 scoreRulesV1 sysC1cex []).part4 = 0 := by
    rw [calculateScoreV2_part4, responseCap_rulesV1, responseDeductPer_rulesV1,
      rectCap_rulesV1, rectDeductPer_rulesV1]
    norm_num [sysC1cex, jsMax, jsMin]
  refine ⟨hpart1, ?_⟩
  rw [calculateScoreV2_total, hpart1, hpart2, hpart3, hpart4]
  norm_num [round1, round_eq]

/-- C2: the scoring function is deterministic - it is a pure total function
of the rule table, the configuration and the catalog, so any two invocations
on identical triples return identical ScoreResult values, every diagnostic
field included (both revisions). -/
theorem C2_determinism :
    ∀ (rd rd2 : RuleData) (data data2 : SystemData) (tools tools2 : List MonitorTool),
      rd = rd2 → data = data2 → tools = tools2 →
      calculateScore rd data tools = calculateScore rd2 data2 tools2 ∧
      calculateScoreV2 rd data tools = calculateScoreV2 rd2 data2 tools2 := by
  intro rd rd2 data data2 tools tools2 h1 h2 h3
  subst h1
  subst h2
  subst h3
  exact ⟨rfl, rfl⟩

/-- C2 witness: two invocations on the same concrete triple agree. -/
theorem C2_determinism_witness :
    calculateScore scoreRulesV1 sysC1cex [] = calculateScore scoreRulesV1 sysC1cex [] ∧
    calculateScoreV2 scoreRulesV1 sysC1cex [] = calculateScoreV2 scoreRulesV1 sysC1cex [] :=
  C2_determinism scoreRulesV1 scoreRulesV1 sysC1cex sysC1cex [] [] rfl rfl rfl

theorem any_filter_eq {α : Type} (p f : α → Bool) (h : ∀ x, f x = true → p x = true) :
    ∀ l : List α, (l.filter p).any f = l.any f := by
  intro l
  induction l with
  | nil => rfl
  | cons a l ih =>
    rw [List.filter_cons]
    by_cases hp : p a = true
    · rw [if_pos hp, List.any_cons, List.any_cons, ih]
    · have hf : f a = false := by
        cases hfa : f a
        · rfl
        · exact absurd (h a hfa) hp
      rw [if_neg hp, List.any_cons, hf, ih]
      simp

theorem coveredBV2_eq (data : SystemData) (c : String) :
    coveredBV2 data c = coveredB data c := by
  unfold coveredBV2 coveredB selectedWithCaps
  rw [any_filter_eq]
  intro tid hf
  cases hcaps : data.toolCapabilities tid with
  | nil =>
    rw [hcaps] at hf
    simp [List.contains] at hf
  | cons a l =>
    simp

theorem missingCapsV2_eq (data : SystemData) :
    missingCapsV2Of data = missingCapsOf data := by
  unfold missingCapsV2Of missingCapsOf
  simp only [coveredBV2_eq]

/-- C5: accuracy and discovery tier edges - a derived accuracy rate of exactly
0.95 gives 10 accuracy points; any derived rate in [0.85, 0.95) gives 7; an
alert total at most 0 with no precomputed rate gives rate 0 and 0 points; a
fault total of exactly 0 with no precomputed rate gives discovery rate 1.0
(reported as 100 percent) and 10 discovery points. -/
theorem C5_tier_edges :
    (∀ (rd : RuleData) (data : SystemData) (tools : List MonitorTool),
      deriveAccuracyRate data = 95/100 → (calculateScore rd data tools).accuracyScore = 10) ∧
    (∀ (rd : RuleData) (data : SystemData) (tools : List MonitorTool),
      85/100 ≤ deriveAccuracyRate data → deriveAccuracyRate data < 95/100 →
      (calculateScore rd data tools).accuracyScore = 7) ∧
    (∀ (rd : RuleData) (data : SystemData) (tools : List MonitorTool) (a : ℚ),
      data.accuracyRate = none → data.alertTotal = some a → a ≤ 0 →
      (calculateScore rd data tools).accuracyRatePct = 0 ∧
      (calculateScore rd data tools).accuracyScore = 0) ∧
    (∀ (rd : RuleData) (data : SystemData) (tools : List MonitorTool),
      data.discoveryRatePct = none → data.faultTotal = some 0 →
      (calculateScore rd data tools).discoveryRatePct = 100 ∧
      (calculateScore rd data tools).discoveryScore = 10) := by
  refine ⟨?_, ?_, ?_, ?_⟩
  · intro rd data tools h
    rw [calculateScore_accuracyScore, h]
    norm_num [rateScore]
  · intro rd data tools h1 h2
    rw [calculateScore_accuracyScore]
    unfold rateScore
    rw [if_neg (by rw [show (0.95 : ℚ) = 95/100 by norm_num]; linarith),
      if_pos (by rw [show (0.85 : ℚ) = 85/100 by norm_num]; linarith)]
  · intro rd data tools a h1 h2 h3
    have hr : deriveAccuracyRate data = 0 := by
      simp [deriveAccuracyRate, h1, h2, h3]
    constructor
    · rw [calculateScore_accuracyRatePct, hr]
      norm_num
    · rw [calculateScore_accuracyScore, hr]
      norm_num [rateScore]
  · intro rd data tools h1 h2
    have hr : deriveDiscoveryRate data = 1 := by
      simp [deriveDiscoveryRate, h1, h2]
    constructor
    · rw [calculateScore_discoveryRatePct, hr]
      norm_num
    · rw [calculateScore_discoveryScore, hr]
      norm_num [rateScore]

/-- C5 witness: the four tier-edge cases at concrete configurations. -/
theorem C5_tier_edges_witness :
    (calculateScore scoreRulesV1 ({ accuracyRate := some (95/100) } : SystemData) []).accuracyScore = 10 ∧
    (calculateScore scoreRulesV1 ({ accuracyRate := some (9/10) } : SystemData) []).accuracyScore = 7 ∧
    ((calculateScore scoreRulesV1 ({ alertTotal := some 0 } : SystemData) []).accuracyRatePct = 0 ∧
      (calculateScore scoreRulesV1 ({ alertTotal := some 0 } : SystemData) []).accuracyScore = 0) ∧
    ((calculateScore scoreRulesV1 ({ faultTotal := some 0 } : SystemData) []).discoveryRatePct = 100 ∧
      (calculateScore scoreRulesV1 ({ faultTotal := some 0 } : SystemData) []).discoveryScore = 10) :=
  ⟨C5_tier_edges.1 scoreRulesV1 _ [] rfl,
    C5_tier_edges.2.1 scoreRulesV1 _ [] (by norm_num [deriveAccuracyRate]) (by norm_num [deriveAccuracyRate]),
    C5_tier_edges.2.2.1 scoreRulesV1 _ [] 0 rfl rfl le_rfl,
    C5_tier_edges.2.2.2 scoreRulesV1 _ [] rfl rfl⟩

/-- C6: the part-3 data-monitor sub-score under the spec rule table follows
the tri-state rule: for both the full and the missing state it equals
max(0, 5 - min(cap, deductPerItem * missingMonitorItems)) with the rule-table
defaults deductPerItem = 1, cap = 5 (the same floored formula for both
states); the na state gives the rule-table flat value 0. The last conjunct
ties the sub-score into part 3. -/
theorem C6_data_monitor_tristate :
    ∀ (data : SystemData) (tools : List MonitorTool),
      (data.dataMonitorConfigured = "full" →
        dataMonitorScore scoreRulesV1 data = jsMax 0 (5 - jsMin 5 (1 * data.missingMonitorItems))) ∧
      (data.dataMonitorConfigured = "missing" →
        dataMonitorScore scoreRulesV1 data = jsMax 0 (5 - jsMin 5 (1 * data.missingMonitorItems))) ∧
      (data.dataMonitorConfigured = "na" → dataMonitorScore scoreRulesV1 data = 0) ∧
      (calculateScore scoreRulesV1 data tools).part3 =
        jsMax 0 (opsLeadScore scoreRulesV1 data + dataMonitorScore scoreRulesV1 data) := by
  intro data tools
  have hc1 : ((ruleFind scoreRulesV1 "data_alert_recipients" "dataMonitorEnabled == true").bind
      (fun r => r.deductPerItem)).getD 0 = 1 := rfl
  have hc2 : ((ruleFind scoreRulesV1 "data_alert_recipients" "deductPerItem").bind
      (fun r => r.capDeduct)).getD 5 = 5 := rfl
  have hc3 : ((ruleFind scoreRulesV1 "data_alert_recipients" "deductPerItem").bind
      (fun r => r.deductPerItem)).getD 1 = 1 := rfl
  have hc4 : ((ruleFind scoreRulesV1 "data_alert_recipients" "dataMonitorEnabled == false").bind
      (fun r => r.score)).getD 0 = 0 := rfl
  refine ⟨?_, ?_, ?_, rfl⟩
  · intro h
    unfold dataMonitorScore
    rw [if_pos h]
    rw [if_pos (by rw [hc1]; norm_num)]
    rw [hc2, hc3]
  · intro h
    unfold dataMonitorScore
    rw [if_neg (by rw [h]; decide), if_pos h, hc2, one_mul]
  · intro h
    unfold dataMonitorScore
    rw [if_neg (by rw [h]; decide), if_neg (by rw [h]; decide), if_pos h, hc4]

/-- C6 witness: the three tri-state cases at concrete configurations. -/
theorem C6_data_monitor_tristate_witness :
    dataMonitorScore scoreRulesV1
      ({ dataMonitorConfigured := "full", missingMonitorItems := 3 } : SystemData) =
        jsMax 0 (5 - jsMin 5 (1 * 3)) ∧
    dataMonitorScore scoreRulesV1
      ({ dataMonitorConfigured := "missing", missingMonitorItems := 3 } : SystemData) =
        jsMax 0 (5 - jsMin 5 (1 * 3)) ∧
    dataMonitorScore scoreRulesV1 ({ dataMonitorConfigured := "na" } : SystemData) = 0 :=
  ⟨(C6_data_monitor_tristate _ []).1 rfl, (C6_data_monitor_tristate _ []).2.1 rfl,
    (C6_data_monitor_tristate _ []).2.2.1 rfl⟩

/-- C9: the missing-mandatory-capability list is computed solely from
selectedToolIds and toolCapabilities - it does not depend on the rule table
or the tool catalog, it agrees between the two revisions, it is exactly the
filter of MANDATORY_CAPS by non-coverage, and it is a sublist of
MANDATORY_CAPS, hence enumerated in the fixed order host, process, network,
db, trans. -/
theorem C9_missingCaps_catalog_independent :
    ∀ (rd rd2 : RuleData) (data : SystemData) (tools tools2 : List MonitorTool),
      (calculateScore rd data tools).missingCaps = (calculateScore rd2 data tools2).missingCaps ∧
      (calculateScoreV2 rd data tools).missingCaps = (calculateScore rd data tools).missingCaps ∧
      (calculateScore rd data tools).missingCaps =
        MANDATORY_CAPS.filter (fun c => !(coveredB data c)) ∧
      List.Sublist ((calculateScore rd data tools).missingCaps) MANDATORY_CAPS := by
  intro rd rd2 data tools tools2
  refine ⟨rfl, ?_, rfl, ?_⟩
  · rw [calculateScoreV2_missingCaps, calculateScore_missingCaps]
    exact missingCapsV2_eq data
  · rw [calculateScore_missingCaps]
    exact List.filter_sublist _

/-- C10: the stored qualitative coverage-level fields serverCoverage and
appCoverage never influence any ScoreResult field, in either revision,
because deriveCoverageLevel is total (the JS fallback to them is dead code);
and deriveCoverageLevel yields the lowest tier when the total is 0. -/
theorem C10_coverage_fields_ignored :
    ∀ (rd : RuleData) (data : SystemData) (tools : List MonitorTool) (sc : String) (ac : Option String),
      calculateScore rd (setCoverageFields data sc ac) tools = calculateScore rd data tools ∧
      calculateScoreV2 rd (setCoverageFields data sc ac) tools = calculateScoreV2 rd data tools ∧
      (∀ covered : ℚ, deriveCoverageLevel covered 0 = "low") := by
  intro rd data tools sc ac
  exact ⟨rfl, rfl, fun covered => deriveCoverageLevel_nonpos covered 0 le_rfl⟩

/-- C8: part1 is monotone in documentedItems whenever the rule table grants a
non-negative bonus per item (as the spec default 1 does), and once the bonus
documentedItems * bonusPerItem reaches the rule-table cap, any further
increase leaves part1 unchanged. -/
theorem C8_doc_monotone :
    (∀ (rd : RuleData) (data : SystemData) (tools : List MonitorTool) (a b : ℚ),
      0 ≤ docBonusPer rd → a ≤ b →
      (calculateScore rd (setDocumentedItems data a) tools).part1 ≤
        (calculateScore rd (setDocumentedItems data b) tools).part1) ∧
    (∀ (rd : RuleData) (data : SystemData) (tools : List MonitorTool) (a b : ℚ),
      0 ≤ docBonusPer rd → docCap rd ≤ a * docBonusPer rd → a ≤ b →
      (calculateScore rd (setDocumentedItems data a) tools).part1 =
        (calculateScore rd (setDocumentedItems data b) tools).part1) := by
  have e1 : ∀ (data : SystemData) (x : ℚ),
      score1Of (setDocumentedItems data x) = score1Of data := fun _ _ => rfl
  have e2 : ∀ (rd : RuleData) (data : SystemData) (tools : List MonitorTool) (x : ℚ),
      score1_2Of rd (setDocumentedItems data x) tools = score1_2Of rd data tools :=
    fun _ _ _ _ => rfl
  have e3 : ∀ (rd : RuleData) (data : SystemData) (x : ℚ),
      score1_3Of rd (setDocumentedItems data x) =
        jsMin (docCap rd) (jsMax 0 (x * docBonusPer rd)) := fun _ _ _ => rfl
  constructor
  · intro rd data tools a b hper hab
    rw [calculateScore_part1, calculateScore_part1]
    unfold part1Of
    rw [e1, e1, e2, e2, e3, e3]
    simp only [jsMax_eq_max, jsMin_eq_min]
    refine max_le_max le_rfl (min_le_min le_rfl (round1_mono (add_le_add_left
      (min_le_min le_rfl (max_le_max le_rfl ?_)) _)))
    exact mul_le_mul_of_nonneg_right hab hper
  · intro rd data tools a b hper hcap hab
    rw [calculateScore_part1, calculateScore_part1]
    unfold part1Of
    rw [e1, e1, e2, e2, e3, e3]
    simp only [jsMax_eq_max, jsMin_eq_min]
    have hcapb : docCap rd ≤ b * docBonusPer rd :=
      hcap.trans (mul_le_mul_of_nonneg_right hab hper)
    have hsa : min (docCap rd) (max 0 (a * docBonusPer rd)) = docCap rd :=
      min_eq_left (hcap.trans (le_max_right 0 _))
    have hsb : min (docCap rd) (max 0 (b * docBonusPer rd)) = docCap rd :=
      min_eq_left (hcapb.trans (le_max_right 0 _))
    rw [hsa, hsb]

/-- C8 witness: monotone step 2 to 3 and plateau step 5 to 7 under the spec
rule table (bonusPerItem 1, cap 5). -/
theorem C8_doc_monotone_witness :
    (calculateScore scoreRulesV1 (setDocumentedItems {} 2) []).part1 ≤
      (calculateScore scoreRulesV1 (setDocumentedItems {} 3) []).part1 ∧
    (calculateScore scoreRulesV1 (setDocumentedItems {} 5) []).part1 =
      (calculateScore scoreRulesV1 (setDocumentedItems {} 7) []).part1 :=
  ⟨C8_doc_monotone.1 scoreRulesV1 {} [] 2 3 (by rw [docBonusPer_rulesV1]; norm_num) (by norm_num),
    C8_doc_monotone.2 scoreRulesV1 {} [] 5 7 (by rw [docBonusPer_rulesV1]; norm_num)
      (by rw [docCap_rulesV1, docBonusPer_rulesV1]; norm_num) (by norm_num)⟩

theorem filter_flatMap_congr {α β : Type} (p q : α → Bool) (g h : α → List β)
    (hpt : ∀ x, (if q x then h x else []) = (if p x then g x else [])) :
    ∀ l : List α, (l.filter q).flatMap h = (l.filter p).flatMap g := by
  intro l
  induction l with
  | nil => rfl
  | cons a l ih =>
    rw [List.filter_cons, List.filter_cons]
    have := hpt a
    by_cases hq : q a = true
    · rw [if_pos hq] at this ⊢
      by_cases hp : p a = true
      · rw [if_pos hp] at this ⊢
        rw [List.flatMap_cons, List.flatMap_cons, this, ih]
      · rw [if_neg hp] at this
        rw [if_neg hp]
        rw [List.flatMap_cons, this, List.nil_append, ih]
    · rw [if_neg hq] at this ⊢
      by_cases hp : p a = true
      · rw [if_pos hp] at this ⊢
        rw [List.flatMap_cons, ← this, List.nil_append, ih]
      · rw [if_neg hp] at this
        rw [if_neg hp, ih]

theorem flatMap_filter_null {β : Type} (G : String → List β) (cap : String)
    (hG : G cap = []) : ∀ l : List String,
    (l.filter (fun c => c != cap)).flatMap G = l.flatMap G := by
  intro l
  induction l with
  | nil => rfl
  | cons a l ih =>
    rw [List.filter_cons]
    by_cases ha : a = cap
    · subst ha
      rw [if_neg (by simp), List.flatMap_cons, hG, List.nil_append, ih]
    · rw [if_pos (by simp [ha]), List.flatMap_cons, List.flatMap_cons, ih]

theorem flatMap_ne_nil_of_ne {α β : Type} (f : α → List β) (l : List α)
    (h : l.flatMap f ≠ []) : l ≠ [] := by
  intro hl
  rw [hl] at h
  exact h rfl

theorem removeCap_tc_ne (data : SystemData) (tid cap x : String) (hx : ¬ x = tid) :
    (removeCap data tid cap).toolCapabilities x = data.toolCapabilities x := by
  show (if x = tid then (data.toolCapabilities x).filter (fun c => c != cap)
    else data.toolCapabilities x) = data.toolCapabilities x
  exact if_neg hx

theorem removeCap_tc_eq (data : SystemData) (tid cap : String) :
    (removeCap data tid cap).toolCapabilities tid =
      (data.toolCapabilities tid).filter (fun c => c != cap) := by
  show (if tid = tid then (data.toolCapabilities tid).filter (fun c => c != cap)
    else data.toolCapabilities tid) = (data.toolCapabilities tid).filter (fun c => c != cap)
  exact if_pos rfl

theorem pairScores_removeCap_eq (rd : RuleData) (tools : List MonitorTool) (data : SystemData)
    (tid cap : String)
    (hnull : ∀ tool : MonitorTool, tools.find? (fun t => t.id == tid) = some tool →
      tool.scenarios.filter (fun s => s.category == cap) = []) :
    pairScores rd (removeCap data tid cap) tools = pairScores rd data tools := by
  unfold pairScores selectedWithCaps
  have hsel : (removeCap data tid cap).selectedToolIds = data.selectedToolIds := rfl
  rw [hsel]
  apply filter_flatMap_congr
  intro x
  by_cases hx : x = tid
  · subst hx
    rw [removeCap_tc_eq]
    cases hfind : tools.find? (fun t => t.id == x) with
    | none =>
      have g1 : toolTerms rd (removeCap data x cap) tools x = [] := by
        unfold toolTerms
        rw [hfind]
      have g2 : toolTerms rd data tools x = [] := by
        unfold toolTerms
        rw [hfind]
      rw [g1, g2]
      rw [ite_self, ite_self]
    | some tool =>
      have hcterm : capTerm rd data tool cap = [] := by
        unfold capTerm
        rw [hnull tool hfind]
        rfl
      have g1 : toolTerms rd (removeCap data x cap) tools x =
          ((data.toolCapabilities x).filter (fun c => c != cap)).flatMap
            (capTerm rd data tool) := by
        unfold toolTerms
        rw [hfind, removeCap_tc_eq]
        rfl
      have g2 : toolTerms rd data tools x =
          (data.toolCapabilities x).flatMap (capTerm rd data tool) := by
        unfold toolTerms
        rw [hfind]
      rw [g1, g2, flatMap_filter_null _ _ hcterm]
      by_cases hlen : 0 < ((data.toolCapabilities x).filter (fun c => c != cap)).length
      · rw [if_pos (by simp only [decide_eq_true_eq]; exact hlen)]
        have hlen2 : 0 < (data.toolCapabilities x).length :=
          lt_of_lt_of_le hlen (List.length_filter_le _ _)
        rw [if_pos (by simp only [decide_eq_true_eq]; exact hlen2)]
      · have hempty : ((data.toolCapabilities x).filter (fun c => c != cap)) = [] := by
          cases hc : (data.toolCapabilities x).filter (fun c => c != cap) with
          | nil => rfl
          | cons a l =>
            rw [hc] at hlen
            exact absurd (by simp) hlen
        have hmap : (data.toolCapabilities x).flatMap (capTerm rd data tool) = [] := by
          rw [← flatMap_filter_null _ _ hcterm, hempty]
          rfl
        rw [hmap, ite_self, ite_self]
  · have htc := removeCap_tc_ne data tid cap x hx
    have g1 : toolTerms rd (removeCap data tid cap) tools x = toolTerms rd data tools x := by
      unfold toolTerms
      cases hfind : tools.find? (fun t => t.id == x) with
      | none => rfl
      | some tool =>
        show ((removeCap data tid cap).toolCapabilities x).flatMap
            (fun c => capTerm rd (removeCap data tid cap) tool c) =
          (data.toolCapabilities x).flatMap (fun c => capTerm rd data tool c)
        rw [htc]
        rfl
    rw [htc, g1]

theorem score1_2_removeCap_eq (rd : RuleData) (tools : List MonitorTool) (data : SystemData)
    (tid cap : String)
    (hnull : ∀ tool : MonitorTool, tools.find? (fun t => t.id == tid) = some tool →
      tool.scenarios.filter (fun s => s.category == cap) = []) :
    score1_2Of rd (removeCap data tid cap) tools = score1_2Of rd data tools := by
  have E := pairScores_removeCap_eq rd tools data tid cap hnull
  simp only [score1_2Of]
  by_cases hcs : 0 < (pairScores rd data tools).length
  · have hne : pairScores rd data tools ≠ [] := by
      intro h
      rw [h] at hcs
      exact absurd hcs (by simp)
    have hsel1 : selectedWithCaps data ≠ [] :=
      flatMap_ne_nil_of_ne (toolTerms rd data tools) _ hne
    have hne2 : pairScores rd (removeCap data tid cap) tools ≠ [] := by
      rw [E]
      exact hne
    have hsel2 : selectedWithCaps (removeCap data tid cap) ≠ [] :=
      flatMap_ne_nil_of_ne (toolTerms rd (removeCap data tid cap) tools) _ hne2
    rw [E, if_pos (List.length_pos.mpr hsel2), if_pos (List.length_pos.mpr hsel1)]
  · have hcs2 : ¬ 0 < (pairScores rd (removeCap data tid cap) tools).length := by
      rw [E]
      exact hcs
    rw [if_neg hcs, if_neg hcs2, ite_self, ite_self]

/-- C3 counterexample: in the second revision a selected tool whose single
enabled capability has zero relevant scenarios is counted as a full-score
(100 percent) term - score1_2 is 10, not the 0 that the exclude-from-the-
average policy yields (the first-revision value, second conjunct). -/
theorem C3_counterexample :
    score1_2V2Of scoreRulesV1 sysC3cex [toolC3cex] = 10 ∧
    score1_2Of scoreRulesV1 sysC3cex [toolC3cex] = 0 := by
  constructor
  · simp only [score1_2V2Of]
    rw [show sysC3cex.selectedToolIds = ["T2"] from rfl]
    rw [if_pos (by norm_num)]
    rw [show (["T2"].map (termV2 scoreRulesV1 sysC3cex [toolC3cex])) = [10] from rfl]
    norm_num
  · rfl

/-- C3 (amended): in the first revision a (selected tool, enabled capability)
pair with zero relevant scenarios contributes no term to the standardization
list, and removing such a capability leaves both the term list and score1_2
unchanged - for every rule table, catalog and configuration. (The second
revision instead treats a tool whose enabled capabilities have no relevant
scenarios as a full-score term, see the counterexample.) -/
theorem C3_scenarioless_excluded_amended :
    ∀ (rd : RuleData) (tools : List MonitorTool) (data : SystemData) (tid cap : String),
      (∀ tool : MonitorTool, tools.find? (fun t => t.id == tid) = some tool →
        tool.scenarios.filter (fun s => s.category == cap) = []) →
      pairScores rd (removeCap data tid cap) tools = pairScores rd data tools ∧
      score1_2Of rd (removeCap data tid cap) tools = score1_2Of rd data tools :=
  fun rd tools data tid cap hnull =>
    ⟨pairScores_removeCap_eq rd tools data tid cap hnull,
      score1_2_removeCap_eq rd tools data tid cap hnull⟩

/-- C3 witness: removing the scenario-less db capability of the concrete tool
changes neither the term list nor score1_2. -/
theorem C3_scenarioless_excluded_amended_witness :
    pairScores scoreRulesV1 (removeCap sysC3cex "T2" "db") [toolC3cex] =
      pairScores scoreRulesV1 sysC3cex [toolC3cex] ∧
    score1_2Of scoreRulesV1 (removeCap sysC3cex "T2" "db") [toolC3cex] =
      score1_2Of scoreRulesV1 sysC3cex [toolC3cex] :=
  C3_scenarioless_excluded_amended scoreRulesV1 [toolC3cex] sysC3cex "T2" "db"
    (fun tool h => by
      have h2 : List.find? (fun t => t.id == "T2") [toolC3cex] = some toolC3cex := rfl
      rw [h2] at h
      cases h
      rfl)

theorem filter_filter_eq {α : Type} (q p : α → Bool) (h : ∀ x, p x = true → q x = true) :
    ∀ l : List α, (l.filter q).filter p = l.filter p := by
  intro l
  induction l with
  | nil => rfl
  | cons a l ih =>
    rw [List.filter_cons]
    by_cases hq : q a = true
    · rw [if_pos hq, List.filter_cons, List.filter_cons, ih]
    · have hp : p a = false := by
        cases hpa : p a
        · rfl
        · exact absurd (h a hpa) hq
      rw [if_neg hq, List.filter_cons, hp, ih]
      simp

theorem removeToolFully_eq (data : SystemData) (tid : String)
    (hcaps : data.toolCapabilities tid = []) :
    removeToolFully data tid =
      { data with selectedToolIds := data.selectedToolIds.filter (fun t => t != tid) } := by
  unfold removeToolFully
  have hf : (fun t => if t = tid then [] else data.toolCapabilities t) = data.toolCapabilities := by
    funext t
    split_ifs with h
    · rw [h, hcaps]
    · rfl
  rw [hf]

theorem calculateScore_packageLevel (rd : RuleData) (data : SystemData) (tools : List MonitorTool) :
    (calculateScore rd data tools).packageLevel = packageLevelOf (coveragePctOf data) := rfl

theorem calculateScore_selected_congr (rd : RuleData) (tools : List MonitorTool)
    (data : SystemData) (sel2 : List String)
    (hsel : selectedWithCaps { data with selectedToolIds := sel2 } = selectedWithCaps data) :
    calculateScore rd { data with selectedToolIds := sel2 } tools = calculateScore rd data tools := by
  have hcov : ∀ c, coveredB { data with selectedToolIds := sel2 } c = coveredB data c := by
    intro c
    unfold coveredB
    rw [hsel]
  have hmc : missingCapsOf { data with selectedToolIds := sel2 } = missingCapsOf data := by
    unfold missingCapsOf
    simp only [hcov]
  have hpct : coveragePctOf { data with selectedToolIds := sel2 } = coveragePctOf data := by
    unfold coveragePctOf
    rw [hmc]
  have hs1 : score1Of { data with selectedToolIds := sel2 } = score1Of data := by
    unfold score1Of
    rw [hmc, hpct]
  have hpair : pairScores rd { data with selectedToolIds := sel2 } tools =
      pairScores rd data tools := by
    unfold pairScores
    rw [hsel]
    rfl
  have hs12 : score1_2Of rd { data with selectedToolIds := sel2 } tools =
      score1_2Of rd data tools := by
    simp only [score1_2Of]
    rw [hsel, hpair]
  have hs13 : score1_3Of rd { data with selectedToolIds := sel2 } = score1_3Of rd data := rfl
  have hp1 : part1Of rd { data with selectedToolIds := sel2 } tools = part1Of rd data tools := by
    unfold part1Of
    rw [hs1, hs12, hs13]
  apply ScoreDetail.ext
  · rw [calculateScore_part1, calculateScore_part1, hp1]
  · rfl
  · rfl
  · rfl
  · rw [calculateScore_total, calculateScore_total, calculateScore_part1, calculateScore_part1, hp1]
    rfl
  · rw [calculateScore_missingCaps, calculateScore_missingCaps, hmc]
  · rw [calculateScore_packageLevel, calculateScore_packageLevel, hpct]
  · rfl
  · rfl
  · rfl
  · rfl

/-- C4 counterexample: a dangling selected tool id is not excluded from
aggregation as if never selected, in either revision. First revision (first
two conjuncts): a dangling id granting all five mandatory capabilities gives
part1 = 45, and 0 after its removal, because the mandatory-coverage union
reads toolCapabilities without consulting the catalog. Second revision (last
two conjuncts): even a dangling id with an empty capability grant counts in
the score1_2 denominator (sumTerms / selectedToolIds.length), giving 5
alongside one resolvable tool versus 10 after its removal. -/
theorem C4_counterexample :
    ((calculateScore scoreRulesV1 sysC4cex []).part1 = 45 ∧
      (calculateScore scoreRulesV1 (removeToolFully sysC4cex "ghost") []).part1 = 0) ∧
    (score1_2V2Of scoreRulesV1 sysC4ghost2 [toolC3cex] = 5 ∧
      score1_2V2Of scoreRulesV1 (removeToolFully sysC4ghost2 "ghost") [toolC3cex] = 10) := by
  refine ⟨⟨?_, ?_⟩, ?_, ?_⟩
  · have hmc : missingCapsOf sysC4cex = [] := rfl
    have hpct : coveragePctOf sysC4cex = 1 := by
      unfold coveragePctOf
      rw [hmc]
      norm_num [MANDATORY_CAPS]
    have hlev1 : deriveCoverageLevel ((sysC4cex.serverCovered).getD 0)
        ((sysC4cex.serverTotal).getD 0) = "full" := by
      show deriveCoverageLevel 1 1 = "full"
      unfold deriveCoverageLevel
      norm_num
    have hlev2 : deriveCoverageLevel ((sysC4cex.appCovered).getD 0)
        ((sysC4cex.appTotal).getD 0) = "full" := by
      show deriveCoverageLevel 1 1 = "full"
      unfold deriveCoverageLevel
      norm_num
    have hs1 : score1Of sysC4cex = 45 := by
      unfold score1Of
      rw [hmc, hpct, hlev1, hlev2, levelDeduct_full]
      have hpkg : pkgDeductOf 1 = 0 := by norm_num [pkgDeductOf]
      rw [hpkg]
      norm_num [sysC4cex]
    have h12 : score1_2Of scoreRulesV1 sysC4cex [] = 0 := rfl
    have h13 : score1_3Of scoreRulesV1 sysC4cex = 0 := by
      unfold score1_3Of
      rw [docCap_rulesV1, docBonusPer_rulesV1]
      show jsMin 5 (jsMax 0 (sysC4cex.documentedItems * 1)) = 0
      norm_num [jsMin, jsMax, sysC4cex]
    rw [calculateScore_part1]
    unfold part1Of
    rw [hs1, h12, h13]
    norm_num [round1, round_eq, jsMax, jsMin]
  · have hmc : missingCapsOf (removeToolFully sysC4cex "ghost") = MANDATORY_CAPS := rfl
    have hpct : coveragePctOf (removeToolFully sysC4cex "ghost") = 0 := by
      unfold coveragePctOf
      rw [hmc]
      norm_num [MANDATORY_CAPS]
    have hlev1 : deriveCoverageLevel (((removeToolFully sysC4cex "ghost").serverCovered).getD 0)
        (((removeToolFully sysC4cex "ghost").serverTotal).getD 0) = "full" := by
      show deriveCoverageLevel 1 1 = "full"
      unfold deriveCoverageLevel
      norm_num
    have hlev2 : deriveCoverageLevel (((removeToolFully sysC4cex "ghost").appCovered).getD 0)
        (((removeToolFully sysC4cex "ghost").appTotal).getD 0) = "full" := by
      show deriveCoverageLevel 1 1 = "full"
      unfold deriveCoverageLevel
      norm_num
    have hs1 : score1Of (removeToolFully sysC4cex "ghost") = -15 := by
      unfold score1Of
      rw [hmc, hpct, hlev1, hlev2, levelDeduct_full]
      have hpkg : pkgDeductOf 0 = 10 := by norm_num [pkgDeductOf]
      rw [hpkg]
      have hself : (removeToolFully sysC4cex "ghost").isSelfBuilt = false := rfl
      rw [hself]
      norm_num [MANDATORY_CAPS]
    have h12 : score1_2Of scoreRulesV1 (removeToolFully sysC4cex "ghost") [] = 0 := rfl
    have h13 : score1_3Of scoreRulesV1 (removeToolFully sysC4cex "ghost") = 0 := by
      unfold score1_3Of
      rw [docCap_rulesV1, docBonusPer_rulesV1]
      show jsMin 5 (jsMax 0 ((removeToolFully sysC4cex "ghost").documentedItems * 1)) = 0
      have hdoc : (removeToolFully sysC4cex "ghost").documentedItems = 0 := rfl
      rw [hdoc]
      norm_num [jsMin, jsMax]
    rw [calculateScore_part1]
    unfold part1Of
    rw [hs1, h12, h13]
    norm_num [round1, round_eq, jsMax, jsMin]
  · simp only [score1_2V2Of]
    rw [show sysC4ghost2.selectedToolIds = ["T2", "ghost"] from rfl]
    rw [if_pos (by norm_num)]
    rw [show (["T2", "ghost"].map (termV2 scoreRulesV1 sysC4ghost2 [toolC3cex])) = [10, 0] from rfl]
    norm_num
  · simp only [score1_2V2Of]
    rw [show (removeToolFully sysC4ghost2 "ghost").selectedToolIds = ["T2"] from rfl]
    rw [if_pos (by norm_num)]
    rw [show (["T2"].map (termV2 scoreRulesV1 (removeToolFully sysC4ghost2 "ghost") [toolC3cex]))
      = [10] from rfl]
    norm_num

/-- C4 (amended): in the first revision of calculateScore only, a dangling
selected tool id is excluded from the standardization average, its checked
scenario ids never resolve, and a configuration whose dangling tool id has
an empty capability grant scores identically to the same configuration with
the id and its toolCapabilities entry removed, for every rule table and
catalog - which is what this theorem states. In both revisions a dangling
id's granted capabilities still feed the mandatory-coverage union, and in
the second revision even an empty-grant dangling id shifts score1_2 through
its denominator; both failures are exhibited by the counterexample. -/
theorem C4_dangling_tool_amended :
    ∀ (rd : RuleData) (tools : List MonitorTool) (data : SystemData) (tid : String),
      tools.find? (fun t => t.id == tid) = none →
      data.toolCapabilities tid = [] →
      calculateScore rd (removeToolFully data tid) tools = calculateScore rd data tools := by
  intro rd tools data tid hfind hcaps
  rw [removeToolFully_eq data tid hcaps]
  apply calculateScore_selected_congr
  show (data.selectedToolIds.filter (fun t => t != tid)).filter
      (fun t => decide (0 < (data.toolCapabilities t).length)) =
    data.selectedToolIds.filter (fun t => decide (0 < (data.toolCapabilities t).length))
  apply filter_filter_eq
  intro x hx
  rw [bne_iff_ne]
  intro hxe
  rw [decide_eq_true_eq, hxe, hcaps] at hx
  exact absurd hx (by simp)

/-- C4 witness: removing a dangling, capability-less tool id from a concrete
configuration leaves the full ScoreResult unchanged. -/
theorem C4_dangling_tool_amended_witness :
    calculateScore scoreRulesV1
        (removeToolFully ({ selectedToolIds := ["ghost"] } : SystemData) "ghost") [] =
      calculateScore scoreRulesV1 ({ selectedToolIds := ["ghost"] } : SystemData) [] :=
  C4_dangling_tool_amended scoreRulesV1 [] _ "ghost" rfl rfl
